import Mathlib

/-!
Verification development for the NeuroLens cognitive-signal core.

The TypeScript source is shallowly embedded over exact rationals (ℚ):
JavaScript numbers are IEEE doubles, but every property verified here is
either a discrete branching fact (decision tables, thresholds, counters)
or an order/convexity fact preserved by exact arithmetic; where non-finite
IEEE values (NaN, ±∞) matter, a dedicated `EFloat` type models their
propagation rules explicitly.
-/

/-- Clamp to the score interval, `Math.max(0, Math.min(100, v))` in the source. -/
def clamp100 (v : ℚ) : ℚ := max 0 (min 100 v)

/-- `Number.prototype.toFixed(2)` followed by `parseFloat`: rounding to two
decimal places, modelled as rounding `100·q` to the nearest integer. -/
def round2 (q : ℚ) : ℚ := ((round (100 * q) : ℤ) : ℚ) / 100

/-! ### Scalar Kalman filter (cognitiveModel.ts, class KalmanFilter)

The source keeps `x` (estimate) and `cov` initialised to `NaN` and checks
`isNaN(this.x)` to decide whether to seed.  In the exact-rational embedding
the unseeded state is `none`; a seeded state is `some (x, cov)`.  The
constants `A = 1`, `B = 0`, `C = 1` of the source are written literally. -/

/-- One call of `KalmanFilter.filter(measurement)` with process noise `Rp`
and measurement noise `Qn`: returns the filter output together with the new
internal state `(x, cov)`. -/
def kalmanStep (Rp Qn : ℚ) (st : Option (ℚ × ℚ)) (m : ℚ) : ℚ × (ℚ × ℚ) :=
  match st with
  | none =>
      let x := (1 / 1) * m
      let cov := (1 / 1) * Qn * (1 / 1)
      (x, (x, cov))
  | some p =>
      let x := p.1
      let cov := p.2
      let predX := (1 * x) + (0 * 0)
      let predCov := ((1 * cov) * 1) + Rp
      let K := predCov * 1 * (1 / ((1 * predCov * 1) + Qn))
      let x2 := predX + K * (m - (1 * predX))
      let cov2 := predCov - (K * 1 * predCov)
      (x2, (x2, cov2))

/-! ### Cognitive model (cognitiveModel.ts, class CognitiveModel) -/

/-- `BiometricInput` of the source; the nested `expressionConfidence` record
is flattened into the `expr…` fields. -/
structure BiometricInput where
  yaw : ℚ
  pitch : ℚ
  roll : ℚ
  ear : ℚ
  blinkRate : ℚ
  exprNeutral : ℚ
  exprHappy : ℚ
  exprAngry : ℚ
  exprFearful : ℚ
  exprSurprised : ℚ
  interactionLevel : ℚ
deriving DecidableEq

/-- `CognitiveDataPoint` of the source.  `time` is `Date.now()` in the
source (an external wall clock); it is carried as an opaque-to-the-claims
rational field set to 0 by the driver below. -/
structure CognitiveDataPoint where
  time : ℚ
  attention : ℚ
  stress : ℚ
  curiosity : ℚ
deriving DecidableEq

/-- Internal state of `CognitiveModel`: the stored smoothed triple
(`this.state`) plus the three private Kalman filter states.
`lastUpdate` (a wall-clock timestamp) is omitted: it is written but never
read by `update`. -/
structure ModelState where
  attention : ℚ
  stress : ℚ
  curiosity : ℚ
  attFilter : Option (ℚ × ℚ)
  strFilter : Option (ℚ × ℚ)
  curFilter : Option (ℚ × ℚ)

/-- The constructor state of `CognitiveModel`: triple (50, 30, 60), all
three filters unseeded. -/
def initModelState : ModelState := ⟨50, 30, 60, none, none, none⟩

/-- The blink-rate contribution to `stressBase` in `CognitiveModel.update`:
`> 30 → +30; else > 20 → +15; else < 5 → +10; else +0`. -/
def blinkAdd (b : ℚ) : ℚ :=
  if b > 30 then 30 else if b > 20 then 15 else if b < 5 then 10 else 0

/-- The raw (pre-clamp, pre-filter) stress value of `CognitiveModel.update`:
base 30, blink-rate adjustment, then the weighted expression terms. -/
def rawStressBase (input : BiometricInput) : ℚ :=
  30 + blinkAdd input.blinkRate
    + input.exprAngry * 60
    + input.exprFearful * 70
    + input.exprNeutral * (-10)
    - input.exprHappy * 30

/-- `CognitiveModel.update`.  `pw` stands for `x ↦ Math.pow(x, 1.6)` (a real
power, irrational in general, so it is carried as an explicit function
parameter; every theorem below holds for all `pw`, and concrete runs pick a
`pw` agreeing with `Math.pow(·, 1.6)` at the points actually evaluated).
Returns the emitted `CognitiveDataPoint` (with `time` 0) and the new state. -/
def CognitiveModel.update (pw : ℚ → ℚ) (st : ModelState) (input : BiometricInput) :
    CognitiveDataPoint × ModelState :=
  let yawPenalty := pw |input.yaw|
  let pitchPenalty := pw |input.pitch - 5|
  let rawAttention0 := 100 - (yawPenalty + pitchPenalty)
  let rawAttention1 := if input.ear < 1/5 then rawAttention0 - 50 else rawAttention0
  let rawAttention := clamp100 rawAttention1
  let ra := kalmanStep (1/10) 10 st.attFilter rawAttention
  let smoothedAttention := ra.1
  let rs := kalmanStep (1/10) 5 st.strFilter (clamp100 (rawStressBase input))
  let smoothedStress := rs.1
  let cb0 : ℚ := 50
  let cb1 := if smoothedAttention > 80 ∧ smoothedStress < 40 then cb0 + 20 else cb0
  let cb2 := if input.pitch < -5 ∧ input.pitch > -25 then cb1 + 15 else cb1
  let cb3 := cb2 + input.exprSurprised * 50
  let curiosityBase := cb3 + input.exprHappy * 20
  let rc := kalmanStep (1/10) 8 st.curFilter (clamp100 curiosityBase)
  let smoothedCuriosity := rc.1
  (⟨0, round2 smoothedAttention, round2 smoothedStress, round2 smoothedCuriosity⟩,
   ⟨smoothedAttention, smoothedStress, smoothedCuriosity, some ra.2, some rs.2, some rc.2⟩)

/-- Run `CognitiveModel.update` over a list of inputs from a given state,
collecting the emitted points. -/
def runModelFrom (pw : ℚ → ℚ) (st : ModelState) : List BiometricInput → List CognitiveDataPoint
  | [] => []
  | i :: rest =>
      let r := CognitiveModel.update pw st i
      r.1 :: runModelFrom pw r.2 rest

/-- Run a fresh `CognitiveModel` over a list of inputs. -/
def runModel (pw : ℚ → ℚ) (inputs : List BiometricInput) : List CognitiveDataPoint :=
  runModelFrom pw initModelState inputs

/-! ### Body-language decision table (MeetingAgent.tsx, determineBodyLanguage) -/

/-- `determineBodyLanguage(isSpeaking, activity, stress, attention, curiosity)`:
the ordered decision table of the source, first match wins.  Note the two
high-stress rules sit inside one `if (stress > 75)` block in the source; a
high-stress sample with `activity` in `[10, 30]` matches neither and falls
through to the engagement rules. -/
def determineBodyLanguage (isSpeaking : Bool) (activity stress attention curiosity : ℚ) :
    String :=
  if isSpeaking then "Gesturing"
  else if stress > 75 ∧ activity > 30 then "Fidgeting"
  else if stress > 75 ∧ activity < 10 then "Arms Crossed"
  else if attention > 80 ∧ curiosity > 70 then "Leaning In"
  else if activity > 15 ∧ activity < 40 ∧ attention > 60 then "Nodding"
  else if attention < 40 ∧ stress < 50 ∧ activity < 10 then "Slouching"
  else "Listening"

/-! ### Stress-alert hysteresis (Dashboard.tsx, processNewDataPoint)

The source keeps `highStressCounter` and `highStressAlertActive` in refs and,
per data point, runs: `if (stress > HIGH_STRESS_THRESHOLD) counter++ else
counter = 0; if (counter > STRESS_ALERT_DURATION_COUNT && !active) {raise;
active = true}; if (stress < STRESS_RECOVERY_THRESHOLD) active = false`.
The source emits a notification only on a raise; an active→inactive flip of
the flag is the source's "recovery" and is reported here as the recovered
event. -/

def HIGH_STRESS_THRESHOLD : ℚ := 85

def STRESS_ALERT_DURATION_COUNT : ℕ := 4

def STRESS_RECOVERY_THRESHOLD : ℚ := 70

/-- One tick of the high-stress alert logic.  Returns the new counter, the
new active flag, whether a "raised" event fired, and whether the active
flag was cleared on this tick (the "recovered" transition). -/
def stressAlertStep (counter : ℕ) (active : Bool) (v : ℚ) : ℕ × Bool × Bool × Bool :=
  let c2 := if v > HIGH_STRESS_THRESHOLD then counter + 1 else 0
  let raisedEvent : Bool := if c2 > STRESS_ALERT_DURATION_COUNT ∧ active = false then true else false
  let active2 := if raisedEvent then true else active
  let recoveredEvent : Bool := if active2 = true ∧ v < STRESS_RECOVERY_THRESHOLD then true else false
  let active3 := if v < STRESS_RECOVERY_THRESHOLD then false else active2
  (c2, active3, raisedEvent, recoveredEvent)

/-- Fold the alert logic over a value stream, counting (raised, recovered)
events. -/
def stressAlertRun (counter : ℕ) (active : Bool) : List ℚ → ℕ × ℕ
  | [] => (0, 0)
  | v :: rest =>
      let s := stressAlertStep counter active v
      let r := stressAlertRun s.1 s.2.1 rest
      ((if s.2.2.1 then 1 else 0) + r.1, (if s.2.2.2 then 1 else 0) + r.2)

/-- The 10-tick stream alternating between 86 and 84. -/
def altStream : List ℚ := [86, 84, 86, 84, 86, 84, 86, 84, 86, 84]

/-! ### Box tracking (MeetingAgent.tsx, analyzeFrame, real mode step 5)

A tick either has a valid heatmap centroid for the slot (total energy above
the floor of 50) — carried here as `some (pctX, pctY)`, the centroid already
converted to percentage coordinates — or the signal is lost (`none`) and the
target drifts 2%/tick toward the slot default.  The target is clamped to
`[0, 100 − w] × [0, 100 − h]` and the displayed position is the
`0.8·prev + 0.2·target` blend, in both branches. -/

/-- The clamped per-axis target position: centroid minus half the box size
when a valid signal exists, else the 98%/2% drift toward the default. -/
def boxTarget (pv w dv : ℚ) (sig : Option ℚ) : ℚ :=
  let t0 := match sig with
    | some c => c - w / 2
    | none => pv * (98/100) + dv * (2/100)
  max 0 (min (100 - w) t0)

/-- One tracking tick for a slot's box: both coordinates are the 80/20
exponential blend of the previous position and the clamped target. -/
def boxStep (px py w h dx dy : ℚ) (sig : Option (ℚ × ℚ)) : ℚ × ℚ :=
  (px * (4/5) + boxTarget px w dx (Option.map Prod.fst sig) * (1/5),
   py * (4/5) + boxTarget py h dy (Option.map Prod.snd sig) * (1/5))

/-- Fold the tracking tick over a sequence of centroid results. -/
def runBox (w h dx dy : ℚ) (p : ℚ × ℚ) : List (Option (ℚ × ℚ)) → ℚ × ℚ
  | [] => p
  | s :: rest => runBox w h dx dy (boxStep p.1 p.2 w h dx dy s) rest

/-! ### Invariant predicates for the bounds claim -/

/-- Invariant of a Kalman filter state: unseeded, or estimate in `[0,100]`
with nonnegative covariance. -/
def kfInv : Option (ℚ × ℚ) → Prop
  | none => True
  | some p => (0 ≤ p.1 ∧ p.1 ≤ 100) ∧ 0 ≤ p.2

/-- All three score fields of a data point lie in `[0, 100]`. -/
def pointInBounds (p : CognitiveDataPoint) : Prop :=
  (0 ≤ p.attention ∧ p.attention ≤ 100) ∧
    (0 ≤ p.stress ∧ p.stress ≤ 100) ∧
    (0 ≤ p.curiosity ∧ p.curiosity ≤ 100)

/-- All three filter states of the model satisfy the filter invariant. -/
def stateInv (st : ModelState) : Prop :=
  kfInv st.attFilter ∧ kfInv st.strFilter ∧ kfInv st.curFilter

/-! ### Spec-side variant for the flow-state-lag claim -/

/-- Modelled from the spec: a variant of `CognitiveModel.update` whose
flow-state bonus reads the *previous tick's* smoothed attention/stress — the
stored triple produced by the preceding call (`this.state`) — as §4.2 and §9
of the spec describe ("uses the previous tick's smoothed values, creating a
one-tick lag by design").  Identical to `CognitiveModel.update` except for
the flow-bonus condition. -/
def updateFlowLagged (pw : ℚ → ℚ) (st : ModelState) (input : BiometricInput) :
    CognitiveDataPoint × ModelState :=
  let yawPenalty := pw |input.yaw|
  let pitchPenalty := pw |input.pitch - 5|
  let rawAttention0 := 100 - (yawPenalty + pitchPenalty)
  let rawAttention1 := if input.ear < 1/5 then rawAttention0 - 50 else rawAttention0
  let rawAttention := clamp100 rawAttention1
  let ra := kalmanStep (1/10) 10 st.attFilter rawAttention
  let smoothedAttention := ra.1
  let rs := kalmanStep (1/10) 5 st.strFilter (clamp100 (rawStressBase input))
  let smoothedStress := rs.1
  let cb0 : ℚ := 50
  let cb1 := if st.attention > 80 ∧ st.stress < 40 then cb0 + 20 else cb0
  let cb2 := if input.pitch < -5 ∧ input.pitch > -25 then cb1 + 15 else cb1
  let cb3 := cb2 + input.exprSurprised * 50
  let curiosityBase := cb3 + input.exprHappy * 20
  let rc := kalmanStep (1/10) 8 st.curFilter (clamp100 curiosityBase)
  let smoothedCuriosity := rc.1
  (⟨0, round2 smoothedAttention, round2 smoothedStress, round2 smoothedCuriosity⟩,
   ⟨smoothedAttention, smoothedStress, smoothedCuriosity, some ra.2, some rs.2, some rc.2⟩)

/-- A concrete first-tick input: straight gaze (yaw 0, pitch 5), open eyes
(ear 1/4), blink rate 10, all expression confidences 0.  `Math.pow(·, 1.6)`
is only evaluated at 0 on this input, where it returns 0, so the identity
function is a faithful stand-in for `pw`. -/
def inputFlow : BiometricInput := ⟨0, 5, 0, 1/4, 10, 0, 0, 0, 0, 0, 0⟩

/-! ### IEEE special-value model for the non-finite-input claim

`EFloat` models a JavaScript number as NaN, ±∞ or an exact rational.
Arithmetic on finite values is exact (no rounding — none of the claims below
depends on rounding), and the IEEE propagation rules for NaN and ±∞ are
modelled faithfully for the operations the filter uses; signed zeros are not
distinguished, and no operation in the runs below divides by zero. -/

inductive EFloat where
  | nan : EFloat
  | inf : EFloat
  | ninf : EFloat
  | fin : ℚ → EFloat
deriving DecidableEq

/-- `isNaN` of the source. -/
def EFloat.isNaN : EFloat → Bool
  | nan => true
  | _ => false

/-- IEEE negation. -/
def EFloat.neg : EFloat → EFloat
  | nan => nan
  | inf => ninf
  | ninf => inf
  | fin q => fin (-q)

/-- IEEE addition: NaN propagates, opposite infinities give NaN. -/
def EFloat.add : EFloat → EFloat → EFloat
  | nan, _ => nan
  | _, nan => nan
  | inf, ninf => nan
  | ninf, inf => nan
  | inf, _ => inf
  | _, inf => inf
  | ninf, _ => ninf
  | _, ninf => ninf
  | fin a, fin b => fin (a + b)

/-- IEEE subtraction, `a + (−b)`. -/
def EFloat.sub (a b : EFloat) : EFloat := a.add b.neg

/-- IEEE multiplication: NaN propagates, `±∞ × 0` is NaN, signs combine. -/
def EFloat.mul : EFloat → EFloat → EFloat
  | nan, _ => nan
  | _, nan => nan
  | inf, inf => inf
  | inf, ninf => ninf
  | ninf, inf => ninf
  | ninf, ninf => inf
  | inf, fin b => if b > 0 then inf else if b < 0 then ninf else nan
  | fin a, inf => if a > 0 then inf else if a < 0 then ninf else nan
  | ninf, fin b => if b > 0 then ninf else if b < 0 then inf else nan
  | fin a, ninf => if a > 0 then ninf else if a < 0 then inf else nan
  | fin a, fin b => fin (a * b)

/-- IEEE division for the cases the filter can reach (signed zeros are not
distinguished, so a zero divisor takes the sign of the dividend). -/
def EFloat.div : EFloat → EFloat → EFloat
  | nan, _ => nan
  | _, nan => nan
  | inf, inf => nan
  | inf, ninf => nan
  | ninf, inf => nan
  | ninf, ninf => nan
  | inf, fin b => if b < 0 then ninf else inf
  | ninf, fin b => if b < 0 then inf else ninf
  | fin _, inf => fin 0
  | fin _, ninf => fin 0
  | fin a, fin b =>
      if b = 0 then (if a > 0 then inf else if a < 0 then ninf else nan)
      else fin (a / b)

/-- `KalmanFilter.filter` over IEEE special values, literally following the
source: the state `(x, cov)` starts as `(NaN, NaN)` and the branch is chosen
by `isNaN(this.x)`.  Returns (output, new x, new cov). -/
def kalmanStepF (Rp Qn x cov m : EFloat) : EFloat × EFloat × EFloat :=
  if x.isNaN then
    let x2 := ((EFloat.fin 1).div (EFloat.fin 1)).mul m
    let cov2 := (((EFloat.fin 1).div (EFloat.fin 1)).mul Qn).mul
      ((EFloat.fin 1).div (EFloat.fin 1))
    (x2, x2, cov2)
  else
    let predX := ((EFloat.fin 1).mul x).add ((EFloat.fin 0).mul (EFloat.fin 0))
    let predCov := (((EFloat.fin 1).mul cov).mul (EFloat.fin 1)).add Rp
    let K := (predCov.mul (EFloat.fin 1)).mul
      ((EFloat.fin 1).div ((((EFloat.fin 1).mul predCov).mul (EFloat.fin 1)).add Qn))
    let x2 := predX.add (K.mul (m.sub ((EFloat.fin 1).mul predX)))
    let cov2 := predCov.sub ((K.mul (EFloat.fin 1)).mul predCov)
    (x2, x2, cov2)

/-! ### Theorems for the first batch of claims -/

/-- Claim C8: the first call on a fresh `KalmanFilter(0.1, 5)` with
measurement 42 returns exactly 42, and seeds the internal estimate to the
measurement and the error covariance to the measurement-noise constant 5. -/
theorem kalman_first_call_seeds :
    kalmanStep (1/10) 5 none 42 = (42, (42, 5)) := by
  norm_num [kalmanStep]

/-- Claim C6: with `isSpeaking = false`, `activity = 35`, `stress = 80`,
`attention = 90`, `curiosity = 80`, the decision table returns
"Fidgeting" (high-stress rule 2) and not "Leaning In" (engagement rule 4):
the earlier rule wins. -/
theorem bodyLanguage_priority_fidgeting :
    determineBodyLanguage false 35 80 90 80 = "Fidgeting" ∧
      determineBodyLanguage false 35 80 90 80 ≠ "Leaning In" := by
  have h : determineBodyLanguage false 35 80 90 80 = "Fidgeting" := by
    norm_num [determineBodyLanguage]
  exact ⟨h, by rw [h]; decide⟩

/-- Claim C7: the raw-stress computation adds 30 for `blinkRate = 31`
(total 60 before the expression terms) and 15 for `blinkRate = 21`
(total 45); the adjustment jumps discretely at the 30/31 and 20/21
boundaries (`blinkRate = 30` adds 15, `blinkRate = 20` adds 0), and every
`blinkRate < 5` adds 10. -/
theorem stress_blink_boundaries :
    30 + blinkAdd 31 = 60 ∧ 30 + blinkAdd 21 = 45 ∧
      30 + blinkAdd 30 = 45 ∧ 30 + blinkAdd 20 = 30 ∧
      rawStressBase ⟨0, 5, 0, 1/4, 31, 0, 0, 0, 0, 0, 0⟩ = 60 ∧
      rawStressBase ⟨0, 5, 0, 1/4, 21, 0, 0, 0, 0, 0, 0⟩ = 45 ∧
      ∀ b : ℚ, b < 5 → blinkAdd b = 10 := by
  refine ⟨by norm_num [blinkAdd], by norm_num [blinkAdd], by norm_num [blinkAdd],
    by norm_num [blinkAdd], by norm_num [rawStressBase, blinkAdd],
    by norm_num [rawStressBase, blinkAdd], ?_⟩
  intro b hb
  have h30 : ¬ b > 30 := by linarith
  have h20 : ¬ b > 20 := by linarith
  simp [blinkAdd, h30, h20, hb]

/-- Witness for C7: the universally quantified blink clause instantiated at
`blinkRate = 3`. -/
theorem stress_blink_boundaries_w :
    blinkAdd 3 = 10 := by
  exact stress_blink_boundaries.2.2.2.2.2.2 3 (by norm_num)

/-- Claim C10: when not speaking and `stress > 75`, a sample with activity
in the closed interval `[10, 30]` matches neither high-stress rule
("Fidgeting" needs `activity > 30`, "Arms Crossed" needs `activity < 10`)
and falls through to the lower-priority rules; concretely `stress = 80`,
`activity = 20`, `attention = 90`, `curiosity = 80` yields "Leaning In". -/
theorem bodyLanguage_highStress_gap (act stress att cur : ℚ)
    (hs : stress > 75) (h10 : 10 ≤ act) (h30 : act ≤ 30) :
    determineBodyLanguage false act stress att cur ≠ "Fidgeting" ∧
      determineBodyLanguage false act stress att cur ≠ "Arms Crossed" ∧
      determineBodyLanguage false 20 80 90 80 = "Leaning In" := by
  have hna : ¬ (stress > 75 ∧ act > 30) := by
    rintro ⟨-, h⟩; linarith
  have hnb : ¬ (stress > 75 ∧ act < 10) := by
    rintro ⟨-, h⟩; linarith
  refine ⟨?_, ?_, by norm_num [determineBodyLanguage]⟩ <;>
    · simp only [determineBodyLanguage, if_neg hna, if_neg hnb, Bool.false_eq_true, if_false]
      split <;> first | decide | (split <;> first | decide | (split <;> decide))

/-- Witness for C10: the theorem instantiated at the concrete sample
`stress = 80`, `activity = 20`, `attention = 90`, `curiosity = 80`. -/
theorem bodyLanguage_highStress_gap_w :
    determineBodyLanguage false 20 80 90 80 ≠ "Fidgeting" ∧
      determineBodyLanguage false 20 80 90 80 ≠ "Arms Crossed" ∧
      determineBodyLanguage false 20 80 90 80 = "Leaning In" := by
  exact bodyLanguage_highStress_gap 20 80 90 80 (by norm_num) (by norm_num) (by norm_num)

/-- Claim C5: with thresholds 85/4/70, the 10-tick stream alternating
between 86 and 84 produces at most one raised event and zero recovered
events; moreover the consecutive-breach counter increments exactly when the
value is above the high threshold and resets to zero otherwise, and a raise
fires exactly when the counter exceeds the duration while the alert is not
already active. -/
theorem stress_hysteresis_deadband :
    (stressAlertRun 0 false altStream).1 ≤ 1 ∧
      (stressAlertRun 0 false altStream).2 = 0 ∧
      (∀ (c : ℕ) (a : Bool) (v : ℚ), v > 85 → (stressAlertStep c a v).1 = c + 1) ∧
      (∀ (c : ℕ) (a : Bool) (v : ℚ), ¬ v > 85 → (stressAlertStep c a v).1 = 0) ∧
      (∀ (c : ℕ) (a : Bool) (v : ℚ),
        (stressAlertStep c a v).2.2.1 = true ↔ ((stressAlertStep c a v).1 > 4 ∧ a = false)) := by
  refine ⟨?_, ?_, ?_, ?_, ?_⟩
  · norm_num [stressAlertRun, stressAlertStep, altStream, HIGH_STRESS_THRESHOLD,
      STRESS_ALERT_DURATION_COUNT, STRESS_RECOVERY_THRESHOLD]
  · norm_num [stressAlertRun, stressAlertStep, altStream, HIGH_STRESS_THRESHOLD,
      STRESS_ALERT_DURATION_COUNT, STRESS_RECOVERY_THRESHOLD]
  · intro c a v hv
    simp [stressAlertStep, HIGH_STRESS_THRESHOLD, hv]
  · intro c a v hv
    simp [stressAlertStep, HIGH_STRESS_THRESHOLD, hv]
  · intro c a v
    by_cases hv : v > HIGH_STRESS_THRESHOLD <;>
      by_cases ha : a = false <;>
        simp [stressAlertStep, STRESS_ALERT_DURATION_COUNT, hv, ha]

/-- Witness for C5: the universally quantified mechanism clauses
instantiated at concrete counter/flag/value triples. -/
theorem stress_hysteresis_deadband_w :
    (stressAlertStep 0 false 86).1 = 0 + 1 ∧ (stressAlertStep 3 false 84).1 = 0 := by
  exact ⟨stress_hysteresis_deadband.2.2.1 0 false 86 (by norm_num),
    stress_hysteresis_deadband.2.2.2.1 3 false 84 (by norm_num)⟩

/-- The clamped target always lies inside `[0, 100 − w]` whenever that
interval is nonempty. -/
theorem boxTarget_mem (pv w dv : ℚ) (sig : Option ℚ) (hw : 0 ≤ 100 - w) :
    0 ≤ boxTarget pv w dv sig ∧ boxTarget pv w dv sig ≤ 100 - w := by
  unfold boxTarget
  constructor
  · exact le_max_left 0 _
  · exact max_le hw (min_le_left _ _)

/-- One tracking tick preserves containment of the box in
`[0, 100 − w] × [0, 100 − h]`. -/
theorem boxStep_containment (px py w h dx dy : ℚ) (sig : Option (ℚ × ℚ))
    (hx0 : 0 ≤ px) (hx1 : px ≤ 100 - w) (hy0 : 0 ≤ py) (hy1 : py ≤ 100 - h) :
    0 ≤ (boxStep px py w h dx dy sig).1 ∧ (boxStep px py w h dx dy sig).1 ≤ 100 - w ∧
      0 ≤ (boxStep px py w h dx dy sig).2 ∧ (boxStep px py w h dx dy sig).2 ≤ 100 - h := by
  obtain ⟨htx0, htx1⟩ := boxTarget_mem px w dx (Option.map Prod.fst sig) (le_trans hx0 hx1)
  obtain ⟨hty0, hty1⟩ := boxTarget_mem py h dy (Option.map Prod.snd sig) (le_trans hy0 hy1)
  unfold boxStep
  refine ⟨by nlinarith, by nlinarith, by nlinarith, by nlinarith⟩

/-- Claim C4: after any sequence of centroid results (valid centroid or
signal-lost drift), a box that starts inside `[0, 100 − w] × [0, 100 − h]`
stays inside it. -/
theorem box_containment (w h dx dy px py : ℚ) (sigs : List (Option (ℚ × ℚ)))
    (hx0 : 0 ≤ px) (hx1 : px ≤ 100 - w) (hy0 : 0 ≤ py) (hy1 : py ≤ 100 - h) :
    0 ≤ (runBox w h dx dy (px, py) sigs).1 ∧
      (runBox w h dx dy (px, py) sigs).1 ≤ 100 - w ∧
      0 ≤ (runBox w h dx dy (px, py) sigs).2 ∧
      (runBox w h dx dy (px, py) sigs).2 ≤ 100 - h := by
  induction sigs generalizing px py with
  | nil => exact ⟨hx0, hx1, hy0, hy1⟩
  | cons s rest ih =>
      obtain ⟨h1, h2, h3, h4⟩ := boxStep_containment px py w h dx dy s hx0 hx1 hy0 hy1
      simpa [runBox] using ih (boxStep px py w h dx dy s).1 (boxStep px py w h dx dy s).2 h1 h2 h3 h4

/-- Witness for C4: the slot-0 box (start (5,5), size 40×40, default (5,5))
stays inside `[0,60] × [0,60]` across a live centroid tick followed by a
signal-lost tick. -/
theorem box_containment_w :
    0 ≤ (runBox 40 40 5 5 (5, 5) [some (50, 50), none]).1 ∧
      (runBox 40 40 5 5 (5, 5) [some (50, 50), none]).1 ≤ 100 - 40 ∧
      0 ≤ (runBox 40 40 5 5 (5, 5) [some (50, 50), none]).2 ∧
      (runBox 40 40 5 5 (5, 5) [some (50, 50), none]).2 ≤ 100 - 40 := by
  exact box_containment 40 40 5 5 5 5 [some (50, 50), none]
    (by norm_num) (by norm_num) (by norm_num) (by norm_num)

/-- Counterexample to claim C9: the realized per-tick blend weight toward
the target is exactly 1/5 when following a live heatmap centroid — the same
weight as in the signal-lost drift branch — not a larger one.  With previous
position 50, box width 40, default 5 and live centroid at 55%, the clamped
target is 35 and the new position is 47 = 50 + (1/5)·(35 − 50); the drift
branch from the same state realizes the identical weight 1/5. -/
theorem box_blend_weight_cex :
    (boxStep 50 50 40 40 5 5 (some (55, 55))).1 = 47 ∧
      boxTarget 50 40 5 (some 55) = 35 ∧
      (50 - (boxStep 50 50 40 40 5 5 (some (55, 55))).1) / (50 - boxTarget 50 40 5 (some 55))
        = 1/5 ∧
      (50 - (boxStep 50 50 40 40 5 5 none).1) / (50 - boxTarget 50 40 5 none) = 1/5 := by
  norm_num [boxStep, boxTarget]

/-- Claim C9 as amended: the displayed box position is always the same
80/20 exponential blend of the previous position and the clamped target,
whether the target comes from a live centroid or from the 2%/tick drift
toward the slot default; the faster response to a live centroid comes from
the target itself jumping to the centroid rather than from a larger blend
weight. -/
theorem box_blend_uniform_weight (px py w h dx dy : ℚ) (sig : Option (ℚ × ℚ)) :
    boxStep px py w h dx dy sig =
      (px + (1/5) * (boxTarget px w dx (Option.map Prod.fst sig) - px),
       py + (1/5) * (boxTarget py h dy (Option.map Prod.snd sig) - py)) := by
  unfold boxStep
  rw [Prod.mk.injEq]
  exact ⟨by ring, by ring⟩

/-- The unseeded filter call returns the measurement and seeds the state. -/
theorem kalmanStep_none (Rp Qn m : ℚ) : kalmanStep Rp Qn none m = (m, (m, Qn)) := by
  norm_num [kalmanStep]

/-- Closed form of the seeded filter call: gain `(cov+R)/(cov+R+Q)`. -/
theorem kalmanStep_some (Rp Qn x cov m : ℚ) :
    kalmanStep Rp Qn (some (x, cov)) m =
      (x + ((cov + Rp) / (cov + Rp + Qn)) * (m - x),
       (x + ((cov + Rp) / (cov + Rp + Qn)) * (m - x),
        (cov + Rp) - ((cov + Rp) / (cov + Rp + Qn)) * (cov + Rp))) := by
  simp only [kalmanStep]
  rw [Prod.mk.injEq, Prod.mk.injEq]
  refine ⟨by ring, by ring, by ring⟩

/-- A convex step `x + K (m − x)` with `K ∈ [0,1]` stays in `[0,100]` when
`x` and `m` do. -/
theorem convex_step_bounds (x m K : ℚ) (hx0 : 0 ≤ x) (hx1 : x ≤ 100) (hm0 : 0 ≤ m)
    (hm1 : m ≤ 100) (hK0 : 0 ≤ K) (hK1 : K ≤ 1) :
    0 ≤ x + K * (m - x) ∧ x + K * (m - x) ≤ 100 := by
  constructor
  · nlinarith [mul_nonneg hK0 hm0, mul_nonneg (by linarith : (0:ℚ) ≤ 1 - K) hx0]
  · nlinarith [mul_nonneg hK0 (by linarith : (0:ℚ) ≤ 100 - m),
      mul_nonneg (by linarith : (0:ℚ) ≤ 1 - K) (by linarith : (0:ℚ) ≤ 100 - x)]

/-- A filter call with nonnegative process noise, positive measurement
noise and a measurement in `[0,100]` keeps the output and the new state in
bounds: the new estimate is a convex combination of the prior estimate and
the measurement. -/
theorem kalmanStep_bounds (Rp Qn : ℚ) (hR : 0 ≤ Rp) (hQ : 0 < Qn)
    (st : Option (ℚ × ℚ)) (m : ℚ) (hst : kfInv st) (hm0 : 0 ≤ m) (hm1 : m ≤ 100) :
    (0 ≤ (kalmanStep Rp Qn st m).1 ∧ (kalmanStep Rp Qn st m).1 ≤ 100) ∧
      kfInv (some (kalmanStep Rp Qn st m).2) := by
  cases st with
  | none =>
      rw [kalmanStep_none]
      exact ⟨⟨hm0, hm1⟩, ⟨⟨hm0, hm1⟩, hQ.le⟩⟩
  | some p =>
      obtain ⟨x, cov⟩ := p
      have hst2 : (0 ≤ x ∧ x ≤ 100) ∧ 0 ≤ cov := hst
      obtain ⟨⟨hx0, hx1⟩, hcov⟩ := hst2
      have hK0 : 0 ≤ (cov + Rp) / (cov + Rp + Qn) :=
        div_nonneg (by linarith) (by linarith)
      have hK1 : (cov + Rp) / (cov + Rp + Qn) ≤ 1 := by
        rw [div_le_one (by linarith)]
        linarith
      rw [kalmanStep_some]
      obtain ⟨h1, h2⟩ := convex_step_bounds x m _ hx0 hx1 hm0 hm1 hK0 hK1
      refine ⟨⟨h1, h2⟩, ⟨h1, h2⟩, ?_⟩
      nlinarith [mul_nonneg (by linarith : (0:ℚ) ≤ 1 - (cov + Rp) / (cov + Rp + Qn))
        (by linarith : (0:ℚ) ≤ cov + Rp)]

/-- The clamp really lands in `[0, 100]`. -/
theorem clamp100_mem (v : ℚ) : 0 ≤ clamp100 v ∧ clamp100 v ≤ 100 := by
  unfold clamp100
  exact ⟨le_max_left 0 _, max_le (by norm_num) (min_le_left _ _)⟩

/-- Two-decimal rounding keeps `[0, 100]`. -/
theorem round2_mem (q : ℚ) (h0 : 0 ≤ q) (h1 : q ≤ 100) :
    0 ≤ round2 q ∧ round2 q ≤ 100 := by
  unfold round2
  have hl : (0 : ℤ) ≤ round (100 * q) := by
    have h : round (0 : ℚ) ≤ round (100 * q) := by
      rw [round_eq, round_eq]
      exact Int.floor_mono (by linarith)
    simpa using h
  have hu : round (100 * q) ≤ 10000 := by
    have h2 : round (100 * q) ≤ round ((10000 : ℚ)) := by
      rw [round_eq, round_eq]
      exact Int.floor_mono (by linarith)
    have h3 : round ((10000 : ℚ)) = 10000 := by
      have h4 : ((10000 : ℤ) : ℚ) = (10000 : ℚ) := by norm_num
      rw [← h4, round_intCast]
    omega
  constructor
  · exact div_nonneg (by exact_mod_cast hl) (by norm_num)
  · rw [div_le_iff₀ (by norm_num : (0:ℚ) < 100)]
    have h5 : ((round (100 * q) : ℤ) : ℚ) ≤ 10000 := by exact_mod_cast hu
    linarith

/-- Composite: clamped measurement into a filter, then two-decimal
rounding, lands in `[0,100]`, and the new filter state keeps the invariant. -/
theorem round2_kalman_bounds (Rp Qn : ℚ) (hR : 0 ≤ Rp) (hQ : 0 < Qn)
    (st : Option (ℚ × ℚ)) (v : ℚ) (hst : kfInv st) :
    (0 ≤ round2 (kalmanStep Rp Qn st (clamp100 v)).1 ∧
        round2 (kalmanStep Rp Qn st (clamp100 v)).1 ≤ 100) ∧
      kfInv (some (kalmanStep Rp Qn st (clamp100 v)).2) := by
  obtain ⟨⟨h1, h2⟩, h3⟩ := kalmanStep_bounds Rp Qn hR hQ st (clamp100 v) hst
    (clamp100_mem v).1 (clamp100_mem v).2
  exact ⟨round2_mem _ h1 h2, h3⟩

/-- One `update` preserves the filter invariant and emits a bounded point. -/
theorem update_bounds (pw : ℚ → ℚ) (st : ModelState) (input : BiometricInput)
    (hst : stateInv st) :
    pointInBounds (CognitiveModel.update pw st input).1 ∧
      stateInv (CognitiveModel.update pw st input).2 := by
  obtain ⟨hA, hS, hC⟩ := hst
  simp only [CognitiveModel.update, pointInBounds, stateInv]
  refine ⟨⟨?_, ?_, ?_⟩, ?_, ?_, ?_⟩
  · exact (round2_kalman_bounds (1/10) 10 (by norm_num) (by norm_num) _ _ hA).1
  · exact (round2_kalman_bounds (1/10) 5 (by norm_num) (by norm_num) _ _ hS).1
  · exact (round2_kalman_bounds (1/10) 8 (by norm_num) (by norm_num) _ _ hC).1
  · exact (round2_kalman_bounds (1/10) 10 (by norm_num) (by norm_num) _ _ hA).2
  · exact (round2_kalman_bounds (1/10) 5 (by norm_num) (by norm_num) _ _ hS).2
  · exact (round2_kalman_bounds (1/10) 8 (by norm_num) (by norm_num) _ _ hC).2

/-- Every point emitted from any starting state with the invariant is
bounded. -/
theorem runModelFrom_bounds (pw : ℚ → ℚ) (inputs : List BiometricInput) :
    ∀ st : ModelState, stateInv st → (runModelFrom pw st inputs).Forall pointInBounds := by
  induction inputs with
  | nil =>
      intro st _
      simp [runModelFrom]
  | cons i rest ih =>
      intro st hst
      obtain ⟨h1, h2⟩ := update_bounds pw st i hst
      simp only [runModelFrom, List.forall_cons]
      exact ⟨h1, ih _ h2⟩

/-- Claim C3: for every input sequence (all fields exact rationals, hence
finite) and every model of the `Math.pow(·, 1.6)` penalty function, every
`ScoredPoint` emitted by a fresh `CognitiveModel` has attention, stress and
curiosity in `[0, 100]`: each raw value is clamped before filtering and each
filter output is a convex combination of the prior estimate and the clamped
measurement (`kalmanStep_bounds`). -/
theorem model_scores_bounded (pw : ℚ → ℚ) (inputs : List BiometricInput) :
    (runModel pw inputs).Forall pointInBounds := by
  exact runModelFrom_bounds pw inputs initModelState ⟨trivial, trivial, trivial⟩

/-- Two-decimal rounding fixes integers. -/
theorem round2_intCast (n : ℤ) : round2 ((n : ℚ)) = (n : ℚ) := by
  unfold round2
  rw [show (100 : ℚ) * (n : ℚ) = ((100 * n : ℤ) : ℚ) by push_cast; ring, round_intCast]
  push_cast
  ring

/-- Counterexample to claim C2: on the very first tick of a fresh model
(gaze straight ahead, low stress input), `CognitiveModel.update` grants the
+20 flow bonus using the smoothed attention (100) and stress (30) computed
in that same call, returning curiosity 70, while the spec's lagged variant
(`updateFlowLagged`, reading the stored prior triple 50/30) would return 50:
the code does not evaluate the bonus on the previous tick's smoothed
values. -/
theorem flow_bonus_same_tick_cex :
    (CognitiveModel.update (fun q => q) initModelState inputFlow).1.curiosity = 70 ∧
      (updateFlowLagged (fun q => q) initModelState inputFlow).1.curiosity = 50 ∧
      (CognitiveModel.update (fun q => q) initModelState inputFlow).1.curiosity ≠
        (updateFlowLagged (fun q => q) initModelState inputFlow).1.curiosity := by
  have h70 : round2 (70 : ℚ) = 70 := by
    have h := round2_intCast 70
    norm_num at h
    exact h
  have h50 : round2 (50 : ℚ) = 50 := by
    have h := round2_intCast 50
    norm_num at h
    exact h
  refine ⟨?_, ?_, ?_⟩ <;>
    norm_num [CognitiveModel.update, updateFlowLagged, inputFlow, initModelState,
      kalmanStep, clamp100, rawStressBase, blinkAdd, h70, h50]

/-- Claim C2 as amended: the flow-state bonus (and the whole of `update`)
depends only on the same-call smoothed values and the filter states; the
stored smoothed triple from the preceding tick has no influence on the
output or on the new state — there is no one-tick lag. -/
theorem update_ignores_stored_triple (pw : ℚ → ℚ) (a s c a2 s2 c2 : ℚ)
    (fa fs fc : Option (ℚ × ℚ)) (input : BiometricInput) :
    CognitiveModel.update pw ⟨a, s, c, fa, fs, fc⟩ input =
      CognitiveModel.update pw ⟨a2, s2, c2, fa, fs, fc⟩ input := rfl

/-- Claim C1 (code behaviour at the failing input): the source filter has
no guard against non-finite measurements.  Seeding `KalmanFilter(0.1, 5)`
with 42 gives state (42, 5); a subsequent NaN measurement returns NaN and
overwrites the estimate with NaN (the prior estimate 42 is neither returned
nor kept), and a +∞ measurement returns +∞. -/
theorem kalmanFilter_no_nonfinite_guard :
    kalmanStepF (EFloat.fin (1/10)) (EFloat.fin 5) EFloat.nan EFloat.nan (EFloat.fin 42)
        = (EFloat.fin 42, EFloat.fin 42, EFloat.fin 5) ∧
      (kalmanStepF (EFloat.fin (1/10)) (EFloat.fin 5) (EFloat.fin 42) (EFloat.fin 5)
          EFloat.nan).1 = EFloat.nan ∧
      (kalmanStepF (EFloat.fin (1/10)) (EFloat.fin 5) (EFloat.fin 42) (EFloat.fin 5)
          EFloat.nan).2.1 = EFloat.nan ∧
      (kalmanStepF (EFloat.fin (1/10)) (EFloat.fin 5) (EFloat.fin 42) (EFloat.fin 5)
          EFloat.inf).1 = EFloat.inf ∧
      EFloat.nan ≠ EFloat.fin 42 := by
  refine ⟨?_, ?_, ?_, ?_, fun h => EFloat.noConfusion h⟩ <;>
    norm_num [kalmanStepF, EFloat.isNaN, EFloat.add, EFloat.mul, EFloat.sub,
      EFloat.neg, EFloat.div]
